import Mathlib

/-!
Verification of the nanobot multi-model fallback dispatcher.

Shallow embedding of `src/nanobot/providers/multi_model_provider.py`
(`MultiModelProvider`): candidate ordering, the fallback loop with
soft/hard failure classification, error aggregation, the lazy
per-model client cache, and the accessor methods.

Conventions of the embedding:
* Python `str | None` values are `Option String`; Python truthiness of a
  string (`if model:`, `x or d`) treats both `None` and `""` as falsy.
* The backend call (`provider.chat`, together with anything else inside the
  `try` block) is abstracted as an oracle `backend : String → CallResult`
  giving, per candidate model, either a returned response or a raised
  exception's message.
* The configuration collaborator (`nanobot/config/schema.py`, not part of
  the dispatcher) is a record of pure lookup functions, as the spec
  describes: `providerConfigFor` / `providerNameFor` / api-base lookup,
  never raising, absent data as `none`.
* Concrete provider client constructors (`OpenAICodexProvider`,
  `CustomProvider`, `LiteLLMProvider`) are external collaborators; a
  constructed client is modelled as inert data recording exactly the
  arguments the dispatcher passes.
-/

namespace Nanobot

/-- Normalized result of a completion call, as used by the dispatcher:
`content : str | None` and a finish-reason tag. -/
structure LLMResponse where
  content : Option String
  finish_reason : String
deriving Repr, DecidableEq

/-- Outcome of one backend call: a normally returned response, or a raised
exception carrying its message (`str(e)`). -/
inductive CallResult where
  | success (r : LLMResponse)
  | exn (msg : String)
deriving Repr, DecidableEq

/-- Python string truthiness: `None` and `""` are falsy. -/
def pyTruthy : Option String → Bool
  | none => false
  | some s => s ≠ ""

/-- Python `x or d` for `x : str | None`, `d : str`. -/
def pyOrStr (o : Option String) (d : String) : String :=
  match o with
  | some s => if s = "" then d else s
  | none => d

/-- Python `s.startswith(p)`: `p` is a character prefix of `s`. -/
def pyStartsWith (s p : String) : Bool :=
  p.data.isPrefixOf s.data

/-- Python slice `s[:n]`: the first `n` characters of `s`. -/
def pyTake (s : String) (n : Nat) : String :=
  ⟨s.data.take n⟩

/-- The assignment `self.models = models or [default_model]` in `MultiModelProvider.__init__`. -/
def initModels (models : Option (List String)) (default_model : String) : List String :=
  match models with
  | some l => if l.isEmpty then [default_model] else l
  | none => [default_model]

/-- Candidate ordering of `MultiModelProvider.chat`: if a (truthy) model is
requested, it goes first, followed by every configured model different from
it, in configured order; otherwise the configured order is used. -/
def modelsToTry (models : List String) : Option String → List String
  | some m => if m = "" then models else m :: models.filter (fun x => x ≠ m)
  | none => models

/-- Soft-failure test of `MultiModelProvider.chat`:
`response.finish_reason == "error" or
 (response.content and response.content.startswith("Error calling LLM:"))`. -/
def isErrorResponse (r : LLMResponse) : Bool :=
  r.finish_reason == "error" ||
    (match r.content with
     | some s => s ≠ "" && pyStartsWith s "Error calling LLM:"
     | none => false)

/-- On a soft failure, `error_msg = response.content or "Unknown error"`. -/
def contentOrUnknown (r : LLMResponse) : String :=
  match r.content with
  | some s => if s = "" then "Unknown error" else s
  | none => "Unknown error"

/-- One joined item of the aggregate failure summary:
`f"{m}: {e[:50]}..." if len(e) > 50 else f"{m}: {e}"`. -/
def renderErr (p : String × String) : String :=
  if p.2.length > 50 then p.1 ++ ": " ++ pyTake p.2 50 ++ "..."
  else p.1 ++ ": " ++ p.2

/-- Python `sep.join(items)`. -/
def joinSep (sep : String) : List String → String
  | [] => ""
  | [a] => a
  | a :: b :: rest => a ++ sep ++ joinSep sep (b :: rest)

/-- The aggregate `error_summary = "; ".join(...)` over the accumulated failure records. -/
def errorSummary (errors : List (String × String)) : String :=
  joinSep "; " (errors.map renderErr)

/-- The terminal all-models-failed response returned by `chat`. -/
def exhaustedResponse (errors : List (String × String)) : LLMResponse :=
  { content := some ("Error: All models failed. " ++ errorSummary errors)
    finish_reason := "error" }

/-- The fallback loop of `MultiModelProvider.chat` over the candidate list,
carrying the accumulated failure records (`errors`).  Returns the response
together with the failure records accumulated before returning. -/
def chatLoop (backend : String → CallResult) :
    List String → List (String × String) → LLMResponse × List (String × String)
  | [], errors => (exhaustedResponse errors, errors)
  | model_name :: rest, errors =>
    match backend model_name with
    | .success r =>
      if isErrorResponse r then
        chatLoop backend rest (errors ++ [(model_name, contentOrUnknown r)])
      else
        (r, errors)
    | .exn msg => chatLoop backend rest (errors ++ [(model_name, msg)])

/-- Entry point `MultiModelProvider.chat`: build the candidate list, then run the
fallback loop with no accumulated failures. -/
def chat (backend : String → CallResult) (models : List String)
    (reqModel : Option String) : LLMResponse × List (String × String) :=
  chatLoop backend (modelsToTry models reqModel) []

/-- Accessor `MultiModelProvider.get_default_model`. -/
def get_default_model (models : List String) (default_model : String) : String :=
  match models with
  | [] => default_model
  | m :: _ => m

/-- Whether the loop classifies this candidate as failing (hard or soft). -/
def candidateFails (backend : String → CallResult) (m : String) : Bool :=
  match backend m with
  | .exn _ => true
  | .success r => isErrorResponse r

/-- The message the loop records for a failing candidate. -/
def recordedMsg (backend : String → CallResult) (m : String) : String :=
  match backend m with
  | .exn s => s
  | .success r => contentOrUnknown r

/-! ## Backend registry / client cache -/

/-- Per-provider configuration record returned by the configuration
collaborator (absent fields are `none`). -/
structure ProviderConfig where
  api_key : Option String
  api_base : Option String
  extra_headers : Option (List (String × String))
deriving Repr, DecidableEq

/-- The configuration collaborator consulted by
`_get_provider_for_model`: pure lookups, never raising
(spec §6: `providerConfigFor`, `providerNameFor`, api-base lookup). -/
structure Config where
  get_provider : String → Option ProviderConfig
  get_provider_name : String → Option String
  get_api_base : String → Option String

/-- A constructed backend client, recording the concrete class chosen
and the constructor arguments the dispatcher passes, in source order. -/
inductive LLMClient where
  | openaiCodex (default_model : String)
  | custom (api_key : Option String) (api_base : String) (default_model : String)
  | litellm (api_key : Option String) (api_base : Option String)
      (default_model : String) (extra_headers : Option (List (String × String)))
      (provider_name : Option String)
deriving Repr, DecidableEq

/-- Client construction branch of `_get_provider_for_model` (the body of
`if model not in self._providers:`).  The local `spec = find_by_name(...)`
of the source is unused there and is omitted. -/
def buildClient (config : Config) (model : String) : LLMClient :=
  let provider_config := config.get_provider model
  let provider_name := config.get_provider_name model
  if provider_name = some "openai_codex" ∨ pyStartsWith model "openai-codex/" = true then
    .openaiCodex model
  else if provider_name = some "custom" then
    .custom
      (match provider_config with
       | some pc => pc.api_key
       | none => some "no-key")
      (pyOrStr (config.get_api_base model) "http://localhost:8000/v1")
      model
  else
    .litellm
      (match provider_config with
       | some pc => pc.api_key
       | none => none)
      (match provider_config with
       | some pc => pc.api_base
       | none => none)
      model
      (match provider_config with
       | some pc => pc.extra_headers
       | none => none)
      provider_name

/-- The client cache `self._providers`, an insertion-ordered dictionary. -/
abbrev Cache := List (String × LLMClient)

/-- Registry method `MultiModelProvider._get_provider_for_model`: return the cached client
if present, otherwise construct one from configuration, insert it, and
return it.  Returns the client together with the updated cache. -/
def getProviderForModel (config : Config) (cache : Cache) (model : String) :
    LLMClient × Cache :=
  match cache.lookup model with
  | some c => (c, cache)
  | none =>
    let c := buildClient config model
    (c, cache ++ [(model, c)])

/-! ## Heap model for `get_models`

`get_models` returns `self.models.copy()`: a fresh list object with the
same contents.  To state that mutating the returned list cannot affect the
dispatcher's internal list, lists of model identifiers are placed in an
explicit heap of cells addressed by `Nat` references. -/

/-- A heap of `List String` cells; addresses `≥ next` are unallocated. -/
structure StrListHeap where
  cells : Nat → List String
  next : Nat

/-- Read the list stored in a cell. -/
def readCell (h : StrListHeap) (r : Nat) : List String := h.cells r

/-- Mutate a cell in place (e.g. the caller appending to a list). -/
def writeCell (h : StrListHeap) (r : Nat) (v : List String) : StrListHeap :=
  { cells := fun i => if i = r then v else h.cells i, next := h.next }

/-- Allocate a fresh cell holding `v`, returning its reference. -/
def allocCell (h : StrListHeap) (v : List String) : Nat × StrListHeap :=
  (h.next,
   { cells := fun i => if i = h.next then v else h.cells i, next := h.next + 1 })

/-- Accessor `MultiModelProvider.get_models`: `return self.models.copy()` — allocate
a fresh list with the contents of the internal `models` cell. -/
def get_models (h : StrListHeap) (modelsRef : Nat) : Nat × StrListHeap :=
  allocCell h (readCell h modelsRef)

/-! ## Theorems -/

/-- C6: with an empty configured model list (and no requested model), the
candidate list is exactly `[defaultModel]`, of length one. -/
theorem candidates_of_empty_config (d : String) :
    modelsToTry (initModels (some []) d) none = [d] ∧
      (modelsToTry (initModels (some []) d) none).length = 1 := by
  simp [initModels, modelsToTry]

/-- C10 counterexample: with configured models `[""]` and requested model
`""`, the empty string is itself a candidate that gets tried, so "the empty
string is never tried as a candidate" fails as stated. -/
theorem empty_requested_model_counterexample :
    "" ∈ modelsToTry [""] (some "") := by
  decide

/-- C10 (amended): an empty-string requested model is treated as absent —
the candidate list is the configured list unchanged — and the empty string
is not a candidate unless it is itself a configured model. -/
theorem empty_requested_model_ignored (models : List String) :
    modelsToTry models (some "") = models ∧
      ("" ∉ models → "" ∉ modelsToTry models (some "")) := by
  refine ⟨rfl, ?_⟩
  intro h
  simpa [modelsToTry] using h

/-- Witness for `empty_requested_model_ignored` at configured list `["a"]`. -/
theorem empty_requested_model_ignored_witness :
    "" ∉ (["a"] : List String) ∧ "" ∉ modelsToTry ["a"] (some "") :=
  ⟨by decide, (empty_requested_model_ignored ["a"]).2 (by decide)⟩

/-- C1 counterexample: configured list `["b", "y", "y"]` is non-empty and
contains the requested model `"b"`, yet the computed candidate list
`["b", "y", "y"]` has duplicate entries. -/
theorem requested_first_counterexample :
    (["b", "y", "y"] : List String) ≠ [] ∧ "b" ∈ (["b", "y", "y"] : List String) ∧
      ¬ (modelsToTry ["b", "y", "y"] (some "b")).Nodup := by
  decide

/-- C1 (amended): for a non-empty, duplicate-free configured list and a
non-empty requested model present in it, the candidate list is the
requested model followed by the configured list with that model removed,
in original order, and has no duplicates. -/
theorem requested_model_first (models : List String) (m : String)
    (hne : models ≠ []) (hmem : m ∈ models) (hnd : models.Nodup)
    (hm : m ≠ "") :
    modelsToTry models (some m) = m :: models.erase m ∧
      (modelsToTry models (some m)).Nodup := by
  have hfilter : models.filter (fun x => x ≠ m) = models.erase m := by
    rw [List.Nodup.erase_eq_filter hnd]
    apply List.filter_congr
    intro a _
    simp [bne, beq_eq_decide]
  constructor
  · simp only [modelsToTry, if_neg hm, hfilter]
  · simp only [modelsToTry, if_neg hm]
    refine List.nodup_cons.mpr ⟨?_, hnd.filter _⟩
    intro hmm
    have := (List.mem_filter.mp hmm).2
    simp at this

/-- Witness for `requested_model_first` at configured list `["a", "b"]`
and requested model `"b"`. -/
theorem requested_model_first_witness :
    modelsToTry ["a", "b"] (some "b") = "b" :: (["a", "b"] : List String).erase "b" ∧
      (modelsToTry ["a", "b"] (some "b")).Nodup :=
  requested_model_first ["a", "b"] "b" (by decide) (by decide) (by decide) (by decide)

/-- Processing one failing candidate appends its failure record and
continues with the remaining candidates. -/
lemma chatLoop_cons_fail (backend : String → CallResult) (a : String)
    (l : List String) (errs : List (String × String))
    (ha : candidateFails backend a = true) :
    chatLoop backend (a :: l) errs
      = chatLoop backend l (errs ++ [(a, recordedMsg backend a)]) := by
  cases hba : backend a with
  | success r =>
    have hr : isErrorResponse r = true := by
      simpa [candidateFails, hba] using ha
    simp [chatLoop, hba, hr, recordedMsg]
  | exn msg =>
    simp [chatLoop, hba, recordedMsg]

/-- A prefix of failing candidates only accumulates their failure records,
in try order. -/
lemma chatLoop_failing_front (backend : String → CallResult) (l2 : List String) :
    ∀ (pre : List String) (errs : List (String × String)),
      (∀ c ∈ pre, candidateFails backend c = true) →
      chatLoop backend (pre ++ l2) errs
        = chatLoop backend l2 (errs ++ pre.map fun c => (c, recordedMsg backend c)) := by
  intro pre
  induction pre with
  | nil => intro errs _; simp
  | cons a pre ih =>
    intro errs hfail
    have ha : candidateFails backend a = true := hfail a (by simp)
    rw [List.cons_append, chatLoop_cons_fail backend a (pre ++ l2) errs ha,
      ih _ (fun c hc => hfail c (by simp [hc]))]
    simp

/-- C2: when a candidate succeeds after every earlier candidate failed,
`chat` returns that candidate's response unchanged without touching the
later candidates, having accumulated exactly one failure record per
preceding candidate, in try order. -/
theorem dispatch_first_success (backend : String → CallResult)
    (models : List String) (req : Option String)
    (pre : List String) (m : String) (rest : List String) (r : LLMResponse)
    (hsplit : modelsToTry models req = pre ++ m :: rest)
    (hpre : ∀ c ∈ pre, candidateFails backend c = true)
    (hm : backend m = .success r)
    (hr : isErrorResponse r = false) :
    chat backend models req = (r, pre.map fun c => (c, recordedMsg backend c)) := by
  unfold chat
  rw [hsplit, chatLoop_failing_front backend (m :: rest) pre [] hpre]
  simp [chatLoop, hm, hr]

/-- Witness for `dispatch_first_success`: candidate `"a"` hard-fails with a
thrown exception, candidate `"b"` succeeds; the returned response is
candidate `"b"`'s and exactly one failure record (for `"a"`) accumulated. -/
theorem dispatch_first_success_witness :
    chat
      (fun c => if c = "a" then .exn "boom"
        else .success { content := some "hi", finish_reason := "stop" })
      ["a", "b"] none
      = ({ content := some "hi", finish_reason := "stop" }, [("a", "boom")]) := by
  have h := dispatch_first_success
    (fun c => if c = "a" then .exn "boom"
      else .success { content := some "hi", finish_reason := "stop" })
    ["a", "b"] none ["a"] "b" []
    { content := some "hi", finish_reason := "stop" }
    (by decide) (by decide) (by decide) (by decide)
  simpa [recordedMsg] using h

/-- C3: when every candidate fails, `chat` returns (rather than raises — the
embedding is a total function) a response with finish-reason `"error"` whose
content is `"Error: All models failed. "` followed by the failure records,
one per candidate in try order, joined by `"; "` and rendered by
`renderErr`; the accumulated records list the candidates in try order. -/
theorem dispatch_exhaustion (backend : String → CallResult)
    (models : List String) (req : Option String)
    (h : ∀ c ∈ modelsToTry models req, candidateFails backend c = true) :
    (chat backend models req).1.finish_reason = "error" ∧
      (chat backend models req).1.content
        = some ("Error: All models failed. "
            ++ joinSep "; "
              ((modelsToTry models req).map
                fun c => renderErr (c, recordedMsg backend c))) ∧
      (chat backend models req).2.map Prod.fst = modelsToTry models req := by
  unfold chat
  rw [show modelsToTry models req = modelsToTry models req ++ [] by simp,
    chatLoop_failing_front backend [] (modelsToTry models req) [] (by simpa using h)]
  simp [chatLoop, exhaustedResponse, errorSummary, List.map_map, Function.comp_def]

/-- Witness for `dispatch_exhaustion`: two candidates, one hard failure and
one soft failure. -/
theorem dispatch_exhaustion_witness :
    (chat
        (fun c => if c = "a" then .exn "boom"
          else .success { content := some "Error calling LLM: t", finish_reason := "stop" })
        ["a", "b"] none).1.finish_reason = "error" ∧
      (chat
          (fun c => if c = "a" then .exn "boom"
            else .success { content := some "Error calling LLM: t", finish_reason := "stop" })
          ["a", "b"] none).1.content
        = some ("Error: All models failed. "
            ++ joinSep "; "
              ((modelsToTry ["a", "b"] none).map
                fun c => renderErr
                  (c, recordedMsg
                    (fun c => if c = "a" then .exn "boom"
                      else .success
                        { content := some "Error calling LLM: t", finish_reason := "stop" })
                    c))) ∧
      (chat
          (fun c => if c = "a" then .exn "boom"
            else .success { content := some "Error calling LLM: t", finish_reason := "stop" })
          ["a", "b"] none).2.map Prod.fst = modelsToTry ["a", "b"] none :=
  dispatch_exhaustion
    (fun c => if c = "a" then .exn "boom"
      else .success { content := some "Error calling LLM: t", finish_reason := "stop" })
    ["a", "b"] none (by decide)

/-- C4: a normally returned response is classified as a soft failure iff its
finish-reason is `"error"` or its content begins with `"Error calling LLM:"`;
on a soft failure the loop records the candidate with the response's content
(`"Unknown error"` when the content is absent or empty) and continues; on a
non-failure it returns the response with the records unchanged. -/
theorem soft_failure_classification (backend : String → CallResult)
    (m : String) (rest : List String) (errs : List (String × String))
    (r : LLMResponse) (hm : backend m = .success r) :
    (isErrorResponse r = true ↔
        (r.finish_reason = "error" ∨
          ∃ s, r.content = some s ∧ pyStartsWith s "Error calling LLM:" = true)) ∧
      (isErrorResponse r = true →
        chatLoop backend (m :: rest) errs
          = chatLoop backend rest (errs ++ [(m, contentOrUnknown r)])) ∧
      (isErrorResponse r = false → chatLoop backend (m :: rest) errs = (r, errs)) ∧
      ((r.content = none ∨ r.content = some "") → contentOrUnknown r = "Unknown error") ∧
      (∀ s, r.content = some s → s ≠ "" → contentOrUnknown r = s) := by
  refine ⟨?_, ?_, ?_, ?_, ?_⟩
  · constructor
    · intro h
      unfold isErrorResponse at h
      cases hc : r.content with
      | none =>
        rw [hc] at h
        simp at h
        exact Or.inl h
      | some s =>
        rw [hc] at h
        simp at h
        rcases h with h | ⟨_, hs⟩
        · exact Or.inl h
        · exact Or.inr ⟨s, rfl, hs⟩
    · intro h
      rcases h with h1 | ⟨s, hc, hs⟩
      · simp [isErrorResponse, h1]
      · have hne : s ≠ "" := by
          intro he
          rw [he] at hs
          exact absurd hs (by decide)
        simp [isErrorResponse, hc, hne, hs]
  · intro h
    simp [chatLoop, hm, h]
  · intro h
    simp [chatLoop, hm, h]
  · intro h
    rcases h with h | h <;> simp [contentOrUnknown, h]
  · intro s hc hs
    simp [contentOrUnknown, hc, hs]

/-- Witness for `soft_failure_classification`: a response whose content
starts with the error prefix is a soft failure and its content is recorded. -/
theorem soft_failure_classification_witness :
    chatLoop (fun _ => .success { content := some "Error calling LLM: x", finish_reason := "stop" })
        ["a"] []
      = chatLoop (fun _ => .success { content := some "Error calling LLM: x", finish_reason := "stop" })
          [] [("a", "Error calling LLM: x")] := by
  have h := (soft_failure_classification
    (fun _ => .success { content := some "Error calling LLM: x", finish_reason := "stop" })
    "a" [] [] { content := some "Error calling LLM: x", finish_reason := "stop" }
    rfl).2.1 (by decide)
  simpa [contentOrUnknown] using h

/-- Unfolding `joinSep` on a cons with a non-empty tail. -/
lemma joinSep_cons_of_ne_nil (sep a : String) (l : List String) (h : l ≠ []) :
    joinSep sep (a :: l) = a ++ sep ++ joinSep sep l := by
  cases l with
  | nil => exact absurd rfl h
  | cons b l' => rfl

/-- Every element of a joined list occurs verbatim inside the join. -/
lemma joinSep_elem (sep x : String) :
    ∀ (l1 l2 : List String), ∃ pre post, joinSep sep (l1 ++ x :: l2) = pre ++ x ++ post := by
  intro l1
  induction l1 with
  | nil =>
    intro l2
    cases l2 with
    | nil => exact ⟨"", "", by simp [joinSep, String.empty_append, String.append_empty]⟩
    | cons b l2' =>
      refine ⟨"", sep ++ joinSep sep (b :: l2'), ?_⟩
      rw [List.nil_append, joinSep_cons_of_ne_nil sep x (b :: l2') (by simp)]
      rw [String.empty_append, String.append_assoc]
  | cons a l1' ih =>
    intro l2
    obtain ⟨pre, post, hpp⟩ := ih l2
    refine ⟨a ++ sep ++ pre, post, ?_⟩
    rw [List.cons_append, joinSep_cons_of_ne_nil sep a (l1' ++ x :: l2) (by simp), hpp]
    simp [String.append_assoc]

/-- C5: in the aggregate failure message, a failure record whose message is
strictly longer than 50 characters appears as the candidate, `": "`, the
first 50 characters of the message, and the `"..."` ellipsis marker; a
record whose message is at most 50 characters appears verbatim. -/
theorem aggregate_truncation (errors l1 l2 : List (String × String))
    (m e : String) (hsplit : errors = l1 ++ (m, e) :: l2) :
    (e.length > 50 →
        ∃ pre post, errorSummary errors = pre ++ (m ++ ": " ++ pyTake e 50 ++ "...") ++ post) ∧
      (e.length ≤ 50 →
        ∃ pre post, errorSummary errors = pre ++ (m ++ ": " ++ e) ++ post) := by
  subst hsplit
  have hmap : (l1 ++ (m, e) :: l2).map renderErr
      = l1.map renderErr ++ renderErr (m, e) :: l2.map renderErr := by
    simp
  constructor
  · intro hlen
    have hr : renderErr (m, e) = m ++ ": " ++ pyTake e 50 ++ "..." := by
      simp [renderErr, hlen]
    obtain ⟨pre, post, hpp⟩ := joinSep_elem "; " (renderErr (m, e))
      (l1.map renderErr) (l2.map renderErr)
    exact ⟨pre, post, by rw [errorSummary, hmap, hpp, hr]⟩
  · intro hlen
    have hr : renderErr (m, e) = m ++ ": " ++ e := by
      simp [renderErr]
      omega
    obtain ⟨pre, post, hpp⟩ := joinSep_elem "; " (renderErr (m, e))
      (l1.map renderErr) (l2.map renderErr)
    exact ⟨pre, post, by rw [errorSummary, hmap, hpp, hr]⟩

/-- Witness for `aggregate_truncation`: a 60-character message is truncated
with the ellipsis marker, a short one appears verbatim. -/
theorem aggregate_truncation_witness :
    (("123456789012345678901234567890123456789012345678901234567890" : String).length > 50 ∧
      ∃ pre post,
        errorSummary [("a", "123456789012345678901234567890123456789012345678901234567890"),
            ("b", "short")]
          = pre ++ ("a" ++ ": "
              ++ pyTake "123456789012345678901234567890123456789012345678901234567890" 50
              ++ "...") ++ post) ∧
      (("short" : String).length ≤ 50 ∧
        ∃ pre post,
          errorSummary [("a", "123456789012345678901234567890123456789012345678901234567890"),
              ("b", "short")]
            = pre ++ ("b" ++ ": " ++ "short") ++ post) :=
  ⟨⟨by decide,
    (aggregate_truncation
      [("a", "123456789012345678901234567890123456789012345678901234567890"), ("b", "short")]
      [] [("b", "short")] "a"
      "123456789012345678901234567890123456789012345678901234567890" rfl).1 (by decide)⟩,
   ⟨by decide,
    (aggregate_truncation
      [("a", "123456789012345678901234567890123456789012345678901234567890"), ("b", "short")]
      [("a", "123456789012345678901234567890123456789012345678901234567890")] [] "b"
      "short" rfl).2 (by decide)⟩⟩

/-- Looked-up entries survive appending to the cache. -/
lemma lookup_append_left {k : String} {v : LLMClient} {c1 c2 : Cache}
    (h : c1.lookup k = some v) : (c1 ++ c2).lookup k = some v := by
  rw [List.lookup_append, h]
  rfl

/-- C7: a second resolution of the same model returns the identical cached
client and cache, even under a changed configuration; resolution never
replaces or removes an existing cache entry, and mutates the cache only by
appending an entry for an absent key. -/
theorem registry_cache_behaviour (cfg cfg' : Config) (cache : Cache) (m : String) :
    getProviderForModel cfg' (getProviderForModel cfg cache m).2 m
        = getProviderForModel cfg cache m ∧
      (∀ k v, cache.lookup k = some v →
        ((getProviderForModel cfg cache m).2).lookup k = some v) ∧
      ((getProviderForModel cfg cache m).2 = cache ∨
        (cache.lookup m = none ∧
          (getProviderForModel cfg cache m).2 = cache ++ [(m, buildClient cfg m)])) := by
  cases hl : cache.lookup m with
  | some c =>
    refine ⟨?_, ?_, Or.inl ?_⟩
    · simp [getProviderForModel, hl]
    · intro k v hk
      simp [getProviderForModel, hl, hk]
    · simp [getProviderForModel, hl]
  | none =>
    have hres : getProviderForModel cfg cache m
        = (buildClient cfg m, cache ++ [(m, buildClient cfg m)]) := by
      simp [getProviderForModel, hl]
    have hl2 : (cache ++ [(m, buildClient cfg m)]).lookup m = some (buildClient cfg m) := by
      rw [List.lookup_append, hl]
      simp [List.lookup]
    refine ⟨?_, ?_, Or.inr ⟨rfl, by rw [hres]⟩⟩
    · rw [hres]
      simp [getProviderForModel, hl2]
    · intro k v hk
      rw [hres]
      exact lookup_append_left hk

/-- Witness for `registry_cache_behaviour`: a pre-existing entry for `"y"`
survives resolving `"x"`. -/
theorem registry_cache_behaviour_witness :
    ([("y", LLMClient.openaiCodex "y")] : Cache).lookup "y"
        = some (LLMClient.openaiCodex "y") ∧
      ((getProviderForModel
          ⟨fun _ => none, fun _ => none, fun _ => none⟩
          [("y", LLMClient.openaiCodex "y")] "x").2).lookup "y"
        = some (LLMClient.openaiCodex "y") :=
  ⟨rfl,
   (registry_cache_behaviour
      ⟨fun _ => none, fun _ => none, fun _ => none⟩
      ⟨fun _ => none, fun _ => some "custom", fun _ => none⟩
      [("y", LLMClient.openaiCodex "y")] "x").2.1
     "y" (LLMClient.openaiCodex "y") rfl⟩

/-- C8: the registry selects the OAuth client when the provider name is
`"openai_codex"` or the model starts with `"openai-codex/"`; otherwise the
direct-endpoint client when the provider name is `"custom"`; otherwise the
gateway client.  Construction is total (never raises), and missing
configuration is replaced by the documented defaults: the `"no-key"`
placeholder credential and the `http://localhost:8000/v1` local endpoint. -/
theorem client_selection_priority (config : Config) (model : String) :
    ((config.get_provider_name model = some "openai_codex" ∨
        pyStartsWith model "openai-codex/" = true) →
      buildClient config model = .openaiCodex model) ∧
      (config.get_provider_name model ≠ some "openai_codex" →
        pyStartsWith model "openai-codex/" = false →
        config.get_provider_name model = some "custom" →
        ∃ key base, buildClient config model = .custom key base model ∧
          (config.get_provider model = none → key = some "no-key") ∧
          ((config.get_api_base model = none ∨ config.get_api_base model = some "") →
            base = "http://localhost:8000/v1")) ∧
      (config.get_provider_name model ≠ some "openai_codex" →
        pyStartsWith model "openai-codex/" = false →
        config.get_provider_name model ≠ some "custom" →
        ∃ key base hdrs, buildClient config model
          = .litellm key base model hdrs (config.get_provider_name model)) := by
  refine ⟨?_, ?_, ?_⟩
  · intro h
    simp [buildClient, h]
  · intro h1 h2 h3
    refine ⟨(match config.get_provider model with
        | some pc => pc.api_key
        | none => some "no-key"),
      pyOrStr (config.get_api_base model) "http://localhost:8000/v1", ?_, ?_, ?_⟩
    · simp [buildClient, h1, h2, h3]
    · intro hp
      simp [hp]
    · intro hb
      rcases hb with hb | hb <;> simp [pyOrStr, hb]
  · intro h1 h2 h3
    refine ⟨(match config.get_provider model with
        | some pc => pc.api_key
        | none => none),
      (match config.get_provider model with
        | some pc => pc.api_base
        | none => none),
      (match config.get_provider model with
        | some pc => pc.extra_headers
        | none => none), ?_⟩
    simp [buildClient, h1, h2, h3]

/-- Witness for `client_selection_priority`: under an empty configuration
with provider name `"custom"`, the direct-endpoint client is selected with
the placeholder credential and the default local endpoint. -/
theorem client_selection_priority_witness :
    buildClient ⟨fun _ => none, fun _ => some "custom", fun _ => none⟩ "m"
      = .custom (some "no-key") "http://localhost:8000/v1" "m" := by
  obtain ⟨key, base, heq, hkey, hbase⟩ :=
    (client_selection_priority
      ⟨fun _ => none, fun _ => some "custom", fun _ => none⟩ "m").2.1
      (by decide) (by decide) rfl
  rw [heq, hkey rfl, hbase (Or.inl rfl)]

/-- C9: `get_models` returns a fresh list whose contents equal the internal
configured model list; the fresh reference is distinct from the internal
one, and mutating the returned list through it leaves the internal list
unchanged. -/
theorem get_models_returns_copy (h : StrListHeap) (modelsRef : Nat)
    (hvalid : modelsRef < h.next) :
    readCell (get_models h modelsRef).2 (get_models h modelsRef).1
        = readCell h modelsRef ∧
      (get_models h modelsRef).1 ≠ modelsRef ∧
      (∀ v, readCell (writeCell (get_models h modelsRef).2 (get_models h modelsRef).1 v)
          modelsRef = readCell h modelsRef) := by
  have hne : h.next ≠ modelsRef := fun he => absurd hvalid (by omega)
  refine ⟨?_, hne, ?_⟩
  · simp [get_models, allocCell, readCell]
  · intro v
    simp [get_models, allocCell, readCell, writeCell, hne, Ne.symm hne]

/-- Witness for `get_models_returns_copy` on a one-cell heap holding
`["a", "b"]`. -/
theorem get_models_returns_copy_witness :
    (0 < (⟨fun _ => ["a", "b"], 1⟩ : StrListHeap).next) ∧
      readCell (get_models ⟨fun _ => ["a", "b"], 1⟩ 0).2
          (get_models ⟨fun _ => ["a", "b"], 1⟩ 0).1
        = readCell ⟨fun _ => ["a", "b"], 1⟩ 0 ∧
      (get_models ⟨fun _ => ["a", "b"], 1⟩ 0).1 ≠ 0 ∧
      readCell
          (writeCell (get_models ⟨fun _ => ["a", "b"], 1⟩ 0).2
            (get_models ⟨fun _ => ["a", "b"], 1⟩ 0).1 ["mutated"]) 0
        = readCell ⟨fun _ => ["a", "b"], 1⟩ 0 :=
  ⟨by decide,
   (get_models_returns_copy ⟨fun _ => ["a", "b"], 1⟩ 0 (by decide)).1,
   (get_models_returns_copy ⟨fun _ => ["a", "b"], 1⟩ 0 (by decide)).2.1,
   (get_models_returns_copy ⟨fun _ => ["a", "b"], 1⟩ 0 (by decide)).2.2 ["mutated"]⟩

end Nanobot
